import Mathlib

/-!
Shallow embedding of the IngestaDev pipeline scripts
(src/etl_service.py and src/ingest_service3.py).

External services (Glue, Athena, DynamoDB, MySQL) are modelled as explicit
response functions; wall-clock sleeping is dropped and a call counter stands
for time, so a value of type Nat -> _ describes what the external service
answers on the n-th call of the corresponding API.  Python exceptions are
modelled with Except; a handler that only logs is modelled by returning
normally while recording the log line.
-/

namespace IngestaDev

/-- Severity of an emitted log line. -/
inductive LogLevel where
  | info
  | warning
  | error
deriving DecidableEq, Repr

/-- Exception classes raised by etl_service.py.  QueryFailed carries the
status string and the reason embedded in the message of the Exception
raised at line 71; SchemasUnavailable is the Exception raised by
wait_for_catalogs at line 41; CredentialsExpired stands for the botocore
credential exceptions; OtherError is any other exception. -/
inductive EtlError where
  | QueryFailed (status : String) (reason : String)
  | SchemasUnavailable
  | CredentialsExpired
  | OtherError (msg : String)
deriving DecidableEq, Repr

/-- Exception classes raised by ingest_service3.py: a Python KeyError from a
dict subscription, and the Exception raised by wait_for_crawler at
line 114 after exhausting its retries. -/
inductive IngestError where
  | KeyError (k : String)
  | CrawlerTimeout
deriving DecidableEq, Repr

/- ## etl_service.py: wait_for_catalogs (lines 26-41) -/

/-- The inner for-loop of wait_for_catalogs: checks the databases in order
and stops at the first one for which get_database raises
EntityNotFoundException (the break at line 37).  avail d is true when
get_database succeeds on database d. -/
def checkAll (avail : String → Bool) : List String → Bool
  | [] => true
  | d :: rest => if avail d then checkAll avail rest else false

/-- The outer retry loop of wait_for_catalogs.  getDb pass db says whether
glue_client.get_database finds db during pass number pass (the
availability of the external catalog may change between passes).  Returns
the index of the pass on which every database was seen available (the code
returns True there, before sleeping), or the exhaustion exception. -/
def wait_for_catalogs_aux (getDb : Nat → String → Bool) (databases : List String) :
    Nat → Nat → Except EtlError Nat
  | 0, _ => .error .SchemasUnavailable
  | r + 1, pass =>
    if checkAll (getDb pass) databases then .ok pass
    else wait_for_catalogs_aux getDb databases r (pass + 1)

/-- wait_for_catalogs(glue_client, databases, retries=5, delay=10),
lines 26-41.  On a pass with a missing database the inner loop breaks, the
code sleeps the full delay and the next pass re-checks every database from
the start; after retries passes without an all-available pass it raises. -/
def wait_for_catalogs (getDb : Nat → String → Bool) (databases : List String)
    (retries : Nat) : Except EtlError Nat :=
  wait_for_catalogs_aux getDb databases retries 0

/- ## etl_service.py: query_athena (lines 43-74) -/

/-- One column descriptor of ResultSet.ResultSetMetadata.ColumnInfo. -/
structure ColumnInfo where
  Label : String
deriving DecidableEq, Repr

/-- One cell of a result row; VarCharValue is absent for null cells, which
col.get(VarCharValue, None) at line 65 turns into None. -/
structure Datum where
  VarCharValue : Option String
deriving DecidableEq, Repr

/-- One row of the Athena result set. -/
structure ResultRow where
  Data : List Datum
deriving DecidableEq, Repr

/-- The payload returned by get_query_results. -/
structure ResultSet where
  Rows : List ResultRow
  ColumnInfo : List ColumnInfo
deriving DecidableEq, Repr

/-- The pd.DataFrame(data, columns=columns) built at line 66. -/
structure DataFrame where
  columns : List String
  data : List (List (Option String))
deriving DecidableEq, Repr

/-- Behaviour of the Athena service during one query_athena call: states n
is the QueryExecution.Status.State string returned by the n-th
get_query_execution; reason n is its optional StateChangeReason;
submitResult is the exception start_query_execution raises, if any;
resultSet is the get_query_results payload. -/
structure AthenaService where
  submitResult : Option EtlError
  states : Nat → String
  reason : Nat → Option String
  resultSet : ResultSet

/-- The membership test at line 57: status in SUCCEEDED, FAILED, CANCELLED. -/
def isTerminalStatus (s : String) : Bool :=
  s = "SUCCEEDED" || s = "FAILED" || s = "CANCELLED"

/-- Observable calls query_athena makes on the Athena client. -/
inductive AthenaEvent where
  | startQuery
  | poll (status : String)
  | fetchResults
deriving DecidableEq, Repr

/-- The while True polling loop of lines 54-59, given a budget of fuel
get_query_execution calls starting at call index i: the trace of polls
performed, plus the index of the first terminal status, or none when the
loop is still running after fuel polls (the source loop has no bound of
its own, so none means it simply keeps polling). -/
def athena_status_loop (states : Nat → String) : Nat → Nat → List AthenaEvent × Option Nat
  | 0, _ => ([], none)
  | fuel + 1, i =>
    let s := states i
    if isTerminalStatus s then ([.poll s], some i)
    else
      let rest := athena_status_loop states fuel (i + 1)
      (.poll s :: rest.1, rest.2)

/-- The sequence of poll events for statuses at indices i, i+1, ..., i+n. -/
def polls (states : Nat → String) : Nat → Nat → List AthenaEvent
  | i, 0 => [.poll (states i)]
  | i, n + 1 => .poll (states i) :: polls states (i + 1) n

/-- query_athena (lines 43-74).  The second component none means the
unbounded status loop has not reached a terminal status within fuel polls
(it never exits on its own in that case).  On SUCCEEDED the single
get_query_results call (line 62) yields columns taken from the
ResultSetMetadata labels (line 64) and data rows from Rows[1:] (line 65);
on any other terminal status the raised exception carries the status and
the service-reported StateChangeReason, defaulting to the literal
Unknown reason (line 69).  The except clause at lines 72-74 logs and
re-raises, so every failure propagates unchanged. -/
def query_athena (svc : AthenaService) (fuel : Nat) :
    List AthenaEvent × Option (Except EtlError DataFrame) :=
  match svc.submitResult with
  | some e => ([.startQuery], some (.error e))
  | none =>
    let lp := athena_status_loop svc.states fuel 0
    match lp.2 with
    | none => (.startQuery :: lp.1, none)
    | some i =>
      if svc.states i = "SUCCEEDED" then
        (.startQuery :: lp.1 ++ [.fetchResults],
          some (.ok
            { columns := svc.resultSet.ColumnInfo.map ColumnInfo.Label,
              data := (svc.resultSet.Rows.drop 1).map
                (fun row => row.Data.map Datum.VarCharValue) }))
      else
        (.startQuery :: lp.1,
          some (.error (.QueryFailed (svc.states i)
            ((svc.reason i).getD "Unknown reason"))))

/-- The status loop exits at some finite poll count. -/
def athena_poll_reaches_terminal (states : Nat → String) : Prop :=
  ∃ fuel, ((athena_status_loop states fuel 0).2).isSome

/- ## etl_service.py: save_to_mysql (lines 76-104) -/

/-- The CREATE TABLE IF NOT EXISTS statement built at lines 87-88, one TEXT
column per DataFrame column. -/
def create_table_query (table : String) (cols : List String) : String :=
  "CREATE TABLE IF NOT EXISTS " ++ table ++ " (" ++
    String.intercalate ", " (cols.map (fun c => c ++ " TEXT")) ++ ")"

/-- The INSERT statement built at lines 94-95: each value is wrapped in
single quotes with no further escaping; a None cell prints as the Python
literal None inside the quotes. -/
def insert_query (table : String) (row : List (Option String)) : String :=
  "INSERT INTO " ++ table ++ " VALUES (" ++
    String.intercalate ", " (row.map (fun v => "\x27" ++ v.getD "None" ++ "\x27")) ++ ")"

/-- Sequential execution of cursor.execute calls: execResult i is the mysql
error message raised by the i-th call, if any.  The first failing call
aborts the remaining statements (the exception leaves the for-loop);
returns the statements actually executed and the error raised, if any. -/
def run_statements (execResult : Nat → Option String) :
    List String → Nat → List String × Option String
  | [], _ => ([], none)
  | s :: rest, i =>
    match execResult i with
    | some e => ([s], some e)
    | none =>
      let r := run_statements execResult rest (i + 1)
      (s :: r.1, r.2)

/-- save_to_mysql(df, table_name), lines 76-104: executes the CREATE TABLE
statement followed by one INSERT per row.  The except clause at lines
103-104 catches every mysql.connector.Error and only logs it, so the first
component, what the caller observes, is always a normal return; the second
and third components record the statements executed before the failure and
the logged error message, if any. -/
def save_to_mysql (execResult : Nat → Option String) (df : DataFrame) (table : String) :
    Except EtlError Unit × List String × Option String :=
  let stmts := create_table_query table df.columns :: df.data.map (insert_query table)
  let r := run_statements execResult stmts 0
  (Except.ok (), r.1, r.2)

/- ## Name derivations (etl_service.py lines 122-123 and 133,
     ingest_service3.py lines 122-123 and 149) -/

/-- The glue database name of line 122 of etl_service.py, identical to the
derivation at line 122 of ingest_service3.py. -/
def glue_database_name (t : String) : String :=
  "glue_database_" ++ t ++ "_DEV"

/-- The glue table name of line 123 of etl_service.py: hyphens replaced by
underscores (the single-character str.replace) and the csv suffix. -/
def glue_table_name (t : String) : String :=
  String.mk (t.data.map (fun c => if c = '-' then '_' else c)) ++ "_csv"

/-- Python str.split(sep) for a single-character separator: splits on every
occurrence, keeping empty segments, and yields one empty segment for the
empty string. -/
def split_char (sep : Char) : List Char → List (List Char)
  | [] => [[]]
  | c :: rest =>
    match split_char sep rest with
    | [] => [[]]
    | cur :: acc => if c = sep then [] :: cur :: acc else (c :: cur) :: acc

/-- The sink table name of line 133 of etl_service.py, as a function of the
glue database name: summary_table_ plus segment number 2 of the name split
on underscores.  The index is always in range because the glue database
name begins with glue_database_, so the getD default is never used. -/
def sink_table_name_of_db (db : String) : String :=
  "summary_table_" ++ String.mk ((split_char '_' db.data).getD 2 [])

/-- The sink table name as a function of the source table identifier. -/
def sink_table_name (t : String) : String :=
  sink_table_name_of_db (glue_database_name t)

/-- The crawler name of line 123 of ingest_service3.py. -/
def glue_crawler_name (t : String) : String :=
  "crawler_" ++ t ++ "_DEV"

/-- The S3 object key of line 149 of ingest_service3.py (csv format). -/
def s3_file_name (t : String) : String :=
  "ingest-service-3/" ++ t ++ ".csv"

/- ## etl_service.py: the per-partition orchestrator loop (lines 128-137) -/

/-- What the orchestrator run needs from the outside world: the Athena
service behaviour per glue database, the poll budget used to observe the
unbounded status loop, and the mysql statement outcomes per sink table. -/
structure EtlEnv where
  athenaSvc : String → AthenaService
  pollFuel : Nat
  mysqlExec : String → Nat → Option String

/-- The partition-local error the loop body logs, if any: save_to_mysql
swallows its own errors, so only the query step can raise. -/
def outcome_of (r : Option (Except EtlError DataFrame)) : Option EtlError :=
  match r with
  | some (.error e) => some e
  | _ => none

/-- The for-loop over zip(glue_databases, glue_tables) at lines 128-137.
Each iteration runs query_athena and save_to_mysql inside a try whose
except clause catches every Exception, logs it together with the glue
database identity, and continues with the next partition.  The result
pairs every partition, in order, with the error logged for it (none for a
success); the overall none means some partition diverged inside the
unbounded query_athena status loop, in which case the run hangs there. -/
def etl_partition_loop (env : EtlEnv) :
    List (String × String) → Option (List (String × Option EtlError))
  | [] => some []
  | (db, _tbl) :: rest =>
    match (query_athena (env.athenaSvc db) env.pollFuel).2 with
    | none => none
    | some (.error e) =>
      (etl_partition_loop env rest).map (fun out => (db, some e) :: out)
    | some (.ok df) =>
      let tname := sink_table_name_of_db db
      let saved := save_to_mysql (env.mysqlExec tname) df tname
      match saved.1 with
      | .ok _ => (etl_partition_loop env rest).map (fun out => (db, none) :: out)
      | .error e => (etl_partition_loop env rest).map (fun out => (db, some e) :: out)

/- ## ingest_service3.py: transform_items (lines 49-63) -/

/-- A DynamoDB attribute value: a tag-to-scalar mapping such as S mapped to
a string. -/
abbrev AttrValue := List (String × String)

/-- A raw DynamoDB item: a field-to-attribute-value mapping. -/
abbrev DynItem := List (String × AttrValue)

/-- Python dict subscription m[k]: the value, or a raised KeyError. -/
def getKey (m : List (String × α)) (k : String) : Except IngestError α :=
  match m.lookup k with
  | some v => Except.ok v
  | none => Except.error (.KeyError k)

/-- The fixed set of expected fields, in the order the dict literal at
lines 53-61 writes them. -/
def declared_fields : List String :=
  ["nombre", "passwordHash", "userID", "tenantID", "ultimoAcceso", "email",
    "fechaCreacion"]

/-- The double subscription item[f][S] used for every field. -/
def getS (item : DynItem) (f : String) : Except IngestError String :=
  match getKey item f with
  | .error e => .error e
  | .ok av => getKey av "S"

/-- The transformed_item dict literal of lines 53-61, keys in the written
order (Python dicts preserve insertion order). -/
def transform_item (item : DynItem) : Except IngestError (List (String × String)) :=
  Except.bind (getS item "nombre") fun nombre =>
  Except.bind (getS item "passwordHash") fun passwordHash =>
  Except.bind (getS item "userID") fun userID =>
  Except.bind (getS item "tenantID") fun tenantID =>
  Except.bind (getS item "ultimoAcceso") fun ultimoAcceso =>
  Except.bind (getS item "email") fun email =>
  Except.bind (getS item "fechaCreacion") fun fechaCreacion =>
  Except.ok [("nombre", nombre), ("passwordHash", passwordHash), ("userID", userID),
    ("tenantID", tenantID), ("ultimoAcceso", ultimoAcceso), ("email", email),
    ("fechaCreacion", fechaCreacion)]

/-- transform_items (lines 49-63): transforms the items in order, appending
each transformed item; an exception raised for one item aborts the whole
loop, so the first failure is the result. -/
def transform_items : List DynItem → Except IngestError (List (List (String × String)))
  | [] => .ok []
  | item :: rest =>
    match transform_item item with
    | .error e => .error e
    | .ok r =>
      match transform_items rest with
      | .error e => .error e
      | .ok rs => .ok (r :: rs)

/- ## ingest_service3.py: create_glue_crawler / start_glue_crawler
     (lines 70-100) -/

/-- The service response to glue.create_crawler. -/
inductive CreateCrawlerResp where
  | created
  | alreadyExists
  | failure (msg : String)
deriving DecidableEq, Repr

/-- create_glue_crawler (lines 70-87): only AlreadyExistsException is
handled, logged as a warning and treated as success; any other client
error has no handler and propagates to the caller. -/
def create_glue_crawler (name : String) :
    CreateCrawlerResp → Except String (LogLevel × String)
  | .created => .ok (.info, "Crawler " ++ name ++ " creado exitosamente.")
  | .alreadyExists => .ok (.warning, "Crawler " ++ name ++ " ya existe.")
  | .failure msg => .error msg

/-- The service response to glue.start_crawler. -/
inductive StartCrawlerResp where
  | started
  | alreadyRunning
  | notFound
  | failure (msg : String)
deriving DecidableEq, Repr

/-- start_glue_crawler (lines 89-100): CrawlerRunningException is logged as
a warning and treated as success; CrawlerNotFoundException is logged at
error level by the handler at lines 97-98 and then swallowed, and the
catch-all at lines 99-100 likewise only logs, so the function always
returns normally whatever the service answers. -/
def start_glue_crawler (name : String) :
    StartCrawlerResp → Except String (LogLevel × String)
  | .started => .ok (.info, "Crawler " ++ name ++ " iniciado.")
  | .alreadyRunning => .ok (.warning, "Crawler " ++ name ++ " ya esta en ejecucion.")
  | .notFound => .ok (.error, "Crawler " ++ name ++ " no encontrado.")
  | .failure msg => .ok (.error, "Error al iniciar el crawler " ++ name ++ ": " ++ msg)

/- ## ingest_service3.py: wait_for_crawler (lines 102-114) -/

/-- The retry loop of wait_for_crawler.  getCrawler i is the Crawler.State
string the i-th get_crawler call returns, or none when the call raises
(the handler at lines 111-112 logs the error and the loop continues).
Only the state READY returns success; any other state falls through to
the sleep and the next attempt. -/
def wait_for_crawler_aux (getCrawler : Nat → Option String) :
    Nat → Nat → Except IngestError Unit
  | 0, _ => .error .CrawlerTimeout
  | r + 1, i =>
    match getCrawler i with
    | some s => if s = "READY" then .ok () else wait_for_crawler_aux getCrawler r (i + 1)
    | none => wait_for_crawler_aux getCrawler r (i + 1)

/-- wait_for_crawler(glue_client, crawler_name, retries=20, delay=60),
lines 102-114: bounded by retries attempts, raising after the budget is
exhausted. -/
def wait_for_crawler (getCrawler : Nat → Option String) (retries : Nat) :
    Except IngestError Unit :=
  wait_for_crawler_aux getCrawler retries 0

/- ## Decidability support and concrete instances used by the theorems -/

deriving instance DecidableEq for Except

/-- Whether an Except value is a normal return. -/
def exceptOk : Except ε α → Bool
  | .ok _ => true
  | .error _ => false

/-- A catalog whose database A exists from the start and whose database B
only exists from pass number 2 (the third pass) on. -/
def c4_sched : Nat → String → Bool :=
  fun pass db => db == "A" || decide (2 ≤ pass)

/-- An Athena execution that reports RUNNING on every poll. -/
def always_running : Nat → String := fun _ => "RUNNING"

/-- An Athena execution observed as QUEUED, RUNNING, RUNNING, SUCCEEDED. -/
def c5_svc : AthenaService :=
  { submitResult := none,
    states := fun n => if n = 0 then "QUEUED" else if n = 3 then "SUCCEEDED" else "RUNNING",
    reason := fun _ => none,
    resultSet := { Rows := [{ Data := [{ VarCharValue := some "col" }] },
                            { Data := [{ VarCharValue := some "x" }] }],
                   ColumnInfo := [{ Label := "col" }] } }

/-- An Athena execution that fails on the second poll with a reason. -/
def c9_svc : AthenaService :=
  { submitResult := none,
    states := fun n => if n = 1 then "FAILED" else "RUNNING",
    reason := fun n => if n = 1 then some "Table not found" else none,
    resultSet := { Rows := [], ColumnInfo := [] } }

/-- A world in which the first partition raises a credentials error at query
submission and the second partition succeeds. -/
def c3_env : EtlEnv :=
  { athenaSvc := fun db =>
      { submitResult := if db = "glue_database_t1_DEV" then some .CredentialsExpired else none,
        states := fun _ => "SUCCEEDED",
        reason := fun _ => none,
        resultSet := { Rows := [], ColumnInfo := [] } },
    pollFuel := 1,
    mysqlExec := fun _ _ => none }

/-- A world in which every partition succeeds on the first poll. -/
def c3w_env : EtlEnv :=
  { athenaSvc := fun _ =>
      { submitResult := none,
        states := fun _ => "SUCCEEDED",
        reason := fun _ => none,
        resultSet := { Rows := [], ColumnInfo := [] } },
    pollFuel := 1,
    mysqlExec := fun _ _ => none }

/-- A one-column, two-row DataFrame. -/
def c8_df : DataFrame := { columns := ["a"], data := [[some "1"], [some "2"]] }

/-- A sink whose second statement (the first INSERT) fails. -/
def c8_exec : Nat → Option String :=
  fun i => if i = 1 then some "Duplicate entry" else none

/-- A raw item carrying every declared field with an S-tagged value. -/
def c10_item : DynItem :=
  [("nombre", [("S", "ana")]), ("passwordHash", [("S", "h")]), ("userID", [("S", "u1")]),
   ("tenantID", [("S", "t1")]), ("ultimoAcceso", [("S", "ayer")]), ("email", [("S", "a@b")]),
   ("fechaCreacion", [("S", "hoy")])]

/- ## Helper lemmas -/

lemma wait_for_catalogs_aux_ok (getDb : Nat → String → Bool) (dbs : List String) :
    ∀ (r pass p : Nat), wait_for_catalogs_aux getDb dbs r pass = .ok p →
      pass ≤ p ∧ p < pass + r ∧ checkAll (getDb p) dbs = true ∧
        ∀ q, pass ≤ q → q < p → checkAll (getDb q) dbs = false := by
  intro r
  induction r with
  | zero => intro pass p h; simp [wait_for_catalogs_aux] at h
  | succ r ih =>
    intro pass p h
    by_cases hc : checkAll (getDb pass) dbs = true
    · simp [wait_for_catalogs_aux, hc] at h
      subst h
      exact ⟨le_refl _, by omega, hc, fun q hq1 hq2 => by omega⟩
    · rw [Bool.not_eq_true] at hc
      simp [wait_for_catalogs_aux, hc] at h
      obtain ⟨h1, h2, h3, h4⟩ := ih (pass + 1) p h
      refine ⟨by omega, by omega, h3, fun q hq1 hq2 => ?_⟩
      rcases Nat.eq_or_lt_of_le hq1 with rfl | hlt
      · exact hc
      · exact h4 q (by omega) hq2

lemma wait_for_catalogs_aux_exhaust (getDb : Nat → String → Bool) (dbs : List String) :
    ∀ (r pass : Nat), (∀ q, pass ≤ q → q < pass + r → checkAll (getDb q) dbs = false) →
      wait_for_catalogs_aux getDb dbs r pass = .error .SchemasUnavailable := by
  intro r
  induction r with
  | zero => intro pass _; rfl
  | succ r ih =>
    intro pass h
    have h0 : checkAll (getDb pass) dbs = false := h pass (le_refl _) (by omega)
    simp [wait_for_catalogs_aux, h0]
    exact ih (pass + 1) (fun q hq1 hq2 => h q (by omega) (by omega))

lemma wait_for_crawler_aux_exhaust (getCrawler : Nat → Option String) :
    ∀ (r i : Nat), (∀ j, i ≤ j → j < i + r → getCrawler j ≠ some "READY") →
      wait_for_crawler_aux getCrawler r i = .error .CrawlerTimeout := by
  intro r
  induction r with
  | zero => intro i _; rfl
  | succ r ih =>
    intro i h
    have hnr : getCrawler i ≠ some "READY" := h i (le_refl i) (by omega)
    cases hgc : getCrawler i with
    | none =>
      simp [wait_for_crawler_aux, hgc]
      exact ih (i + 1) (fun j h1 h2 => h j (by omega) (by omega))
    | some s =>
      have hs : ¬(s = "READY") := by
        intro e
        exact hnr (by rw [hgc, e])
      simp [wait_for_crawler_aux, hgc, hs]
      exact ih (i + 1) (fun j h1 h2 => h j (by omega) (by omega))

lemma athena_status_loop_none (states : Nat → String)
    (hnt : ∀ m, isTerminalStatus (states m) = false) :
    ∀ (fuel i : Nat), (athena_status_loop states fuel i).2 = none := by
  intro fuel
  induction fuel with
  | zero => intro i; rfl
  | succ fuel ih =>
    intro i
    simp [athena_status_loop, hnt i]
    exact ih (i + 1)

lemma athena_status_loop_eq (states : Nat → String) :
    ∀ (n fuel i : Nat), n < fuel →
      (∀ j, j < n → isTerminalStatus (states (i + j)) = false) →
      isTerminalStatus (states (i + n)) = true →
      athena_status_loop states fuel i = (polls states i n, some (i + n)) := by
  intro n
  induction n with
  | zero =>
    intro fuel i hf _ hterm
    cases fuel with
    | zero => exact absurd hf (Nat.not_lt_zero _)
    | succ fuel =>
      rw [Nat.add_zero] at hterm
      simp [athena_status_loop, hterm, polls]
  | succ n ih =>
    intro fuel i hf hmin hterm
    cases fuel with
    | zero => exact absurd hf (Nat.not_lt_zero _)
    | succ fuel =>
      have h0 : isTerminalStatus (states i) = false := by
        have := hmin 0 (Nat.succ_pos n)
        rwa [Nat.add_zero] at this
      have ihr := ih fuel (i + 1) (by omega)
        (fun j hj => by
          have := hmin (j + 1) (by omega)
          rwa [show i + (j + 1) = i + 1 + j by omega] at this)
        (by rwa [show i + 1 + n = i + (n + 1) by omega])
      simp only [athena_status_loop, h0, Bool.false_eq_true, if_false]
      rw [ihr]
      simp [polls, show i + 1 + n = i + (n + 1) by omega]

lemma polls_count_fetch (states : Nat → String) :
    ∀ (n i : Nat), (polls states i n).count AthenaEvent.fetchResults = 0 := by
  intro n
  induction n with
  | zero => intro i; simp [polls]
  | succ n ih => intro i; simp [polls, List.count_cons, ih (i + 1)]

lemma polls_count_start (states : Nat → String) :
    ∀ (n i : Nat), (polls states i n).count AthenaEvent.startQuery = 0 := by
  intro n
  induction n with
  | zero => intro i; simp [polls]
  | succ n ih => intro i; simp [polls, List.count_cons, ih (i + 1)]

lemma except_ok_exists {x : Except ε α} (h : exceptOk x = true) :
    ∃ v, x = .ok v := by
  cases x with
  | error e => simp [exceptOk] at h
  | ok v => exact ⟨v, rfl⟩

lemma except_bind_ok {x : Except ε α} {f : α → Except ε β} {r : β}
    (h : Except.bind x f = .ok r) : ∃ v, x = .ok v ∧ f v = .ok r := by
  cases x with
  | error e => simp [Except.bind] at h
  | ok v => exact ⟨v, rfl, h⟩

lemma transform_item_ok_keys (item : DynItem) (r : List (String × String))
    (h : transform_item item = .ok r) : r.map Prod.fst = declared_fields := by
  rw [transform_item] at h
  obtain ⟨v1, h1, h⟩ := except_bind_ok h
  obtain ⟨v2, h2, h⟩ := except_bind_ok h
  obtain ⟨v3, h3, h⟩ := except_bind_ok h
  obtain ⟨v4, h4, h⟩ := except_bind_ok h
  obtain ⟨v5, h5, h⟩ := except_bind_ok h
  obtain ⟨v6, h6, h⟩ := except_bind_ok h
  obtain ⟨v7, h7, h⟩ := except_bind_ok h
  simp only [Except.ok.injEq] at h
  subst h
  rfl

lemma transform_item_ok_of_fields (item : DynItem)
    (h : ∀ f ∈ declared_fields, exceptOk (getS item f) = true) :
    ∃ r, transform_item item = .ok r := by
  obtain ⟨v1, h1⟩ := except_ok_exists (h "nombre" (by simp [declared_fields]))
  obtain ⟨v2, h2⟩ := except_ok_exists (h "passwordHash" (by simp [declared_fields]))
  obtain ⟨v3, h3⟩ := except_ok_exists (h "userID" (by simp [declared_fields]))
  obtain ⟨v4, h4⟩ := except_ok_exists (h "tenantID" (by simp [declared_fields]))
  obtain ⟨v5, h5⟩ := except_ok_exists (h "ultimoAcceso" (by simp [declared_fields]))
  obtain ⟨v6, h6⟩ := except_ok_exists (h "email" (by simp [declared_fields]))
  obtain ⟨v7, h7⟩ := except_ok_exists (h "fechaCreacion" (by simp [declared_fields]))
  refine ⟨[("nombre", v1), ("passwordHash", v2), ("userID", v3), ("tenantID", v4),
    ("ultimoAcceso", v5), ("email", v6), ("fechaCreacion", v7)], ?_⟩
  rw [transform_item, h1, h2, h3, h4, h5, h6, h7]
  rfl

lemma run_statements_stops (execResult : Nat → Option String) :
    ∀ (stmts : List String) (i k : Nat) (e : String),
      (∀ j, j < k → execResult (i + j) = none) → execResult (i + k) = some e →
      k < stmts.length →
      run_statements execResult stmts i = (stmts.take (k + 1), some e) := by
  intro stmts
  induction stmts with
  | nil => intro i k e _ _ hk; simp at hk
  | cons s rest ih =>
    intro i k e hnone hsome hk
    cases k with
    | zero =>
      rw [Nat.add_zero] at hsome
      simp [run_statements, hsome]
    | succ k =>
      have h0 : execResult i = none := by
        have := hnone 0 (Nat.succ_pos k)
        rwa [Nat.add_zero] at this
      have ihr := ih (i + 1) k e
        (fun j hj => by
          have := hnone (j + 1) (by omega)
          rwa [show i + (j + 1) = i + 1 + j by omega] at this)
        (by rwa [show i + 1 + k = i + (k + 1) by omega])
        (by simpa using hk)
      simp [run_statements, h0, ihr]

/- ## Claim theorems -/

/-- Claim C1 (amended).  The schema-availability wait of etl_service.py and
the crawler wait of ingest_service3.py are bounded by their retry count
and fail with their timeout exception once the budget is exhausted, but
the query-executor status poll of query_athena is an unconditioned
while True loop: on a status sequence that never reaches a terminal
state it is still running after any number of polls. -/
theorem poll_loops_bounded_except_athena :
    (∀ (getDb : Nat → String → Bool) (dbs : List String) (retries : Nat),
      (∀ p, p < retries → checkAll (getDb p) dbs = false) →
      wait_for_catalogs getDb dbs retries = .error .SchemasUnavailable)
    ∧ (∀ (getCrawler : Nat → Option String) (retries : Nat),
      (∀ i, i < retries → getCrawler i ≠ some "READY") →
      wait_for_crawler getCrawler retries = .error .CrawlerTimeout)
    ∧ (∀ (states : Nat → String), (∀ m, isTerminalStatus (states m) = false) →
      ∀ fuel, (athena_status_loop states fuel 0).2 = none) := by
  refine ⟨fun getDb dbs retries h => ?_, fun getCrawler retries h => ?_, fun states h fuel => ?_⟩
  · exact wait_for_catalogs_aux_exhaust getDb dbs retries 0
      (fun q _ hq => h q (by omega))
  · exact wait_for_crawler_aux_exhaust getCrawler retries 0
      (fun j _ hj => h j (by omega))
  · exact athena_status_loop_none states h fuel 0

/-- Witness for C1: a catalog that never appears makes wait_for_catalogs
fail with the timeout exception after its two passes. -/
theorem poll_loops_bounded_except_athena_witness :
    wait_for_catalogs (fun _ _ => false) ["db"] 2 = .error .SchemasUnavailable :=
  poll_loops_bounded_except_athena.1 (fun _ _ => false) ["db"] 2 (fun _ _ => rfl)

/-- Counterexample for C1 as stated: on the all-RUNNING status sequence the
query_athena status loop never reaches a terminal state, for any poll
budget, so that poll loop runs forever. -/
theorem athena_poll_never_terminates_on_running :
    ¬ athena_poll_reaches_terminal always_running := by
  rintro ⟨fuel, h⟩
  rw [athena_status_loop_none always_running (fun m => rfl) fuel 0] at h
  simp at h

/-- Claim C4 (confirmed).  wait_for_catalogs returns success only on a pass
in which every named database is observed available, every earlier pass
having had a missing database; exhausting the retry budget without such a
pass fails with the schemas-unavailable exception.  In the scenario with
databases A and B where B exists only from the third pass on, three
retries succeed exactly on pass index 2 and two retries fail. -/
theorem wait_for_catalogs_all_present_pass :
    (∀ (getDb : Nat → String → Bool) (dbs : List String) (retries p : Nat),
      wait_for_catalogs getDb dbs retries = .ok p →
      p < retries ∧ checkAll (getDb p) dbs = true ∧
        ∀ q, q < p → checkAll (getDb q) dbs = false)
    ∧ (∀ (getDb : Nat → String → Bool) (dbs : List String) (retries : Nat),
      (∀ p, p < retries → checkAll (getDb p) dbs = false) →
      wait_for_catalogs getDb dbs retries = .error .SchemasUnavailable)
    ∧ wait_for_catalogs c4_sched ["A", "B"] 3 = .ok 2
    ∧ wait_for_catalogs c4_sched ["A", "B"] 2 = .error .SchemasUnavailable := by
  refine ⟨fun getDb dbs retries p h => ?_, fun getDb dbs retries h => ?_, by decide, by decide⟩
  · obtain ⟨h1, h2, h3, h4⟩ := wait_for_catalogs_aux_ok getDb dbs retries 0 p h
    exact ⟨by omega, h3, fun q hq => h4 q (by omega) hq⟩
  · exact wait_for_catalogs_aux_exhaust getDb dbs retries 0 (fun q _ hq => h q (by omega))

/-- Witness for C4: in the A-and-late-B scenario the successful pass is pass
index 2, both databases are available there, and neither earlier pass had
them all available. -/
theorem wait_for_catalogs_all_present_pass_witness :
    2 < 3 ∧ checkAll (c4_sched 2) ["A", "B"] = true ∧
      ∀ q, q < 2 → checkAll (c4_sched q) ["A", "B"] = false :=
  wait_for_catalogs_all_present_pass.1 c4_sched ["A", "B"] 3 2 (by decide)

/-- Claim C5 (confirmed).  For every status sequence whose first terminal
state is SUCCEEDED, query_athena performs the submit, then one poll per
status up to and including the SUCCEEDED one, then exactly one result
fetch, which is the last call of the run; the returned DataFrame takes
its column names from the ResultSetMetadata labels, not from the first
data row, and its data rows are Rows with the header row dropped. -/
theorem query_single_fetch_after_success (svc : AthenaService) (fuel n : Nat)
    (hsubmit : svc.submitResult = none) (hfuel : n < fuel)
    (hmin : ∀ j, j < n → isTerminalStatus (svc.states j) = false)
    (hsucc : svc.states n = "SUCCEEDED") :
    query_athena svc fuel =
      (AthenaEvent.startQuery :: polls svc.states 0 n ++ [AthenaEvent.fetchResults],
        some (Except.ok
          { columns := svc.resultSet.ColumnInfo.map ColumnInfo.Label,
            data := (svc.resultSet.Rows.drop 1).map
              (fun row => row.Data.map Datum.VarCharValue) }))
    ∧ (query_athena svc fuel).1.count AthenaEvent.fetchResults = 1
    ∧ (query_athena svc fuel).1.getLast? = some AthenaEvent.fetchResults := by
  have hterm : isTerminalStatus (svc.states (0 + n)) = true := by
    rw [Nat.zero_add, hsucc]; rfl
  have hloop := athena_status_loop_eq svc.states n fuel 0 hfuel
    (fun j hj => by rw [Nat.zero_add]; exact hmin j hj) hterm
  have hq : query_athena svc fuel =
      (AthenaEvent.startQuery :: polls svc.states 0 n ++ [AthenaEvent.fetchResults],
        some (Except.ok
          { columns := svc.resultSet.ColumnInfo.map ColumnInfo.Label,
            data := (svc.resultSet.Rows.drop 1).map
              (fun row => row.Data.map Datum.VarCharValue) })) := by
    simp only [query_athena, hsubmit]
    rw [hloop]
    simp [Nat.zero_add, hsucc]
  refine ⟨hq, ?_, ?_⟩
  · rw [hq]
    simp [List.count_cons, List.count_append, polls_count_fetch]
  · rw [hq]
    show ((AthenaEvent.startQuery :: polls svc.states 0 n) ++
      [AthenaEvent.fetchResults]).getLast? = some AthenaEvent.fetchResults
    exact List.getLast?_concat _

/-- Witness for C5: on the QUEUED, RUNNING, RUNNING, SUCCEEDED sequence the
run performs exactly one fetch and it is the last call. -/
theorem query_single_fetch_after_success_witness :
    (query_athena c5_svc 4).1.count AthenaEvent.fetchResults = 1 ∧
      (query_athena c5_svc 4).1.getLast? = some AthenaEvent.fetchResults :=
  ⟨(query_single_fetch_after_success c5_svc 4 3 rfl (by decide)
      (by intro j hj; interval_cases j <;> rfl) rfl).2.1,
   (query_single_fetch_after_success c5_svc 4 3 rfl (by decide)
      (by intro j hj; interval_cases j <;> rfl) rfl).2.2⟩

/-- Claim C9 (confirmed).  When the first terminal status is FAILED or
CANCELLED, query_athena raises QueryFailed carrying the status together
with exactly the StateChangeReason string the service reported, performs
no result fetch, and submits the query exactly once (no automatic
retry). -/
theorem query_failed_carries_service_reason (svc : AthenaService) (fuel n : Nat)
    (r : String) (hsubmit : svc.submitResult = none) (hfuel : n < fuel)
    (hmin : ∀ j, j < n → isTerminalStatus (svc.states j) = false)
    (hfail : svc.states n = "FAILED" ∨ svc.states n = "CANCELLED")
    (hr : svc.reason n = some r) :
    query_athena svc fuel =
      (AthenaEvent.startQuery :: polls svc.states 0 n,
        some (Except.error (EtlError.QueryFailed (svc.states n) r)))
    ∧ (query_athena svc fuel).1.count AthenaEvent.startQuery = 1
    ∧ (query_athena svc fuel).1.count AthenaEvent.fetchResults = 0 := by
  have hterm : isTerminalStatus (svc.states (0 + n)) = true := by
    rw [Nat.zero_add]
    rcases hfail with h | h <;> (rw [h]; rfl)
  have hnotsucc : ¬(svc.states n = "SUCCEEDED") := by
    rcases hfail with h | h <;> (rw [h]; decide)
  have hloop := athena_status_loop_eq svc.states n fuel 0 hfuel
    (fun j hj => by rw [Nat.zero_add]; exact hmin j hj) hterm
  have hq : query_athena svc fuel =
      (AthenaEvent.startQuery :: polls svc.states 0 n,
        some (Except.error (EtlError.QueryFailed (svc.states n) r))) := by
    simp only [query_athena, hsubmit]
    rw [hloop]
    simp [Nat.zero_add, hnotsucc, hr]
  refine ⟨hq, ?_, ?_⟩
  · rw [hq]
    simp [List.count_cons, polls_count_start]
  · rw [hq]
    simp [List.count_cons, polls_count_fetch]

/-- Witness for C9: an execution failing on its second poll with reason
Table not found raises QueryFailed with exactly that reason. -/
theorem query_failed_carries_service_reason_witness :
    query_athena c9_svc 2 =
      (AthenaEvent.startQuery :: polls c9_svc.states 0 1,
        some (Except.error (EtlError.QueryFailed (c9_svc.states 1) "Table not found"))) :=
  (query_failed_carries_service_reason c9_svc 2 1 "Table not found" rfl (by decide)
    (by intro j hj; have h0 : j = 0 := Nat.lt_one_iff.mp hj; subst h0; rfl)
    (Or.inl rfl) rfl).1

/-- Claim C3 (amended).  As long as every partition's query poll reaches a
terminal state, the orchestrator loop of etl_service.py visits every
partition in order and pairs each one with the error raised for it, if
any (the log of lines 136-137 carries the glue database identity): an
error in one partition, of any class, never prevents the later partitions
from running. -/
theorem partition_errors_logged_and_run_continues
    (env : EtlEnv) (parts : List (String × String))
    (h : ∀ p ∈ parts, ((query_athena (env.athenaSvc p.1) env.pollFuel).2).isSome = true) :
    etl_partition_loop env parts =
      some (parts.map (fun p =>
        (p.1, outcome_of (query_athena (env.athenaSvc p.1) env.pollFuel).2))) := by
  induction parts with
  | nil => rfl
  | cons p rest ih =>
    obtain ⟨db, tbl⟩ := p
    have hp := h (db, tbl) (List.mem_cons_self _ _)
    have hrest := ih (fun q hq => h q (List.mem_cons_of_mem _ hq))
    rcases hq : (query_athena (env.athenaSvc db) env.pollFuel).2 with _ | r
    · rw [hq] at hp
      simp at hp
    · rcases r with e | df
      · simp [etl_partition_loop, hq, hrest, outcome_of]
      · simp [etl_partition_loop, hq, hrest, outcome_of, save_to_mysql]

/-- Witness for C3: a single succeeding partition is visited and recorded
with no error. -/
theorem partition_errors_logged_and_run_continues_witness :
    etl_partition_loop c3w_env [("glue_database_t_DEV", "t_csv")] =
      some ([("glue_database_t_DEV", "t_csv")].map (fun p =>
        (p.1, outcome_of (query_athena (c3w_env.athenaSvc p.1) c3w_env.pollFuel).2))) :=
  partition_errors_logged_and_run_continues c3w_env
    [("glue_database_t_DEV", "t_csv")] (by decide)

/-- Counterexample for C3 as stated: with the first partition raising
CredentialsExpired, the run does not abort; the second partition is still
processed (and succeeds), because the except clause at line 136 catches
every exception class and continues the loop. -/
theorem run_continues_after_credentials_error :
    etl_partition_loop c3_env
      [("glue_database_t1_DEV", "t1_csv"), ("glue_database_t2_DEV", "t2_csv")] =
      some [("glue_database_t1_DEV", some EtlError.CredentialsExpired),
        ("glue_database_t2_DEV", none)] := by decide

/-- Claim C6 (amended).  create_glue_crawler treats an already-exists
response as success (a warning log, not an error), and start_glue_crawler
treats an already-running response as success; but start_glue_crawler
never raises at all: a not-found response is logged at error level and
swallowed, returning normally to the caller instead of surfacing a hard
error. -/
theorem crawler_idempotent_and_notfound_swallowed :
    (∀ n, create_glue_crawler n .alreadyExists
        = .ok (LogLevel.warning, "Crawler " ++ n ++ " ya existe."))
    ∧ (∀ n, start_glue_crawler n .alreadyRunning
        = .ok (LogLevel.warning, "Crawler " ++ n ++ " ya esta en ejecucion."))
    ∧ (∀ n resp, exceptOk (start_glue_crawler n resp) = true)
    ∧ (∀ n, start_glue_crawler n .notFound
        = .ok (LogLevel.error, "Crawler " ++ n ++ " no encontrado.")) := by
  refine ⟨fun n => rfl, fun n => rfl, fun n resp => ?_, fun n => rfl⟩
  cases resp <;> rfl

/-- Counterexample for C6 as stated: on a not-found response the start step
returns normally with only an error-level log line; no exception reaches
the caller. -/
theorem start_crawler_not_found_swallowed :
    start_glue_crawler "crawler_t_DEV" .notFound
        = .ok (LogLevel.error, "Crawler crawler_t_DEV no encontrado.")
      ∧ exceptOk (start_glue_crawler "crawler_t_DEV" .notFound) = true :=
  ⟨rfl, rfl⟩

/-- Injectivity of a name scheme that puts the identifier between a fixed
prefix and a fixed suffix. -/
lemma affix_injective (pre suf : String) (t t2 : String)
    (h : pre ++ t ++ suf = pre ++ t2 ++ suf) : t = t2 := by
  have h2 : pre.data ++ t.data ++ suf.data = pre.data ++ t2.data ++ suf.data := by
    have h3 := congrArg String.data h
    simpa using h3
  exact String.ext (List.append_cancel_left (List.append_cancel_right h2))

/-- Claim C7 (amended).  The schema (glue database) name, the discovery-job
(crawler) name and the blob key (S3 file name) are derived
deterministically and injectively, so distinct identifiers never collide
on them; the sink table name is not injective, because it keeps only the
segment of the identifier before its first underscore. -/
theorem resolver_names_injective_except_sink :
    (∀ t t2 : String, glue_database_name t = glue_database_name t2 → t = t2)
    ∧ (∀ t t2 : String, glue_crawler_name t = glue_crawler_name t2 → t = t2)
    ∧ (∀ t t2 : String, s3_file_name t = s3_file_name t2 → t = t2) :=
  ⟨fun t t2 h => affix_injective "glue_database_" "_DEV" t t2 h,
   fun t t2 h => affix_injective "crawler_" "_DEV" t t2 h,
   fun t t2 h => affix_injective "ingest-service-3/" ".csv" t t2 h⟩

/-- Witness for C7: the glue database derivation applied at a concrete
identifier. -/
theorem resolver_names_injective_except_sink_witness : ("tbl" : String) = "tbl" :=
  resolver_names_injective_except_sink.1 "tbl" "tbl" rfl

/-- Counterexample for C7 as stated: the identifiers users_a and users_b are
distinct but share the derived sink table name summary_table_users, since
the derivation keeps only the segment before the first underscore. -/
theorem sink_table_name_collision :
    sink_table_name "users_a" = sink_table_name "users_b"
      ∧ ("users_a" : String) ≠ "users_b" :=
  ⟨by decide, by decide⟩

/-- Claim C2 (amended).  transform_items does not tolerate a missing
declared field: an item without the field nombre raises KeyError nombre
(and likewise for the other declared fields via the same subscription
pattern), and the first item whose transform raises aborts the transform
of the whole list; no null is substituted. -/
theorem transform_missing_field_raises_and_aborts :
    (∀ item : DynItem, item.lookup "nombre" = none →
      transform_item item = .error (.KeyError "nombre"))
    ∧ (∀ (pre post : List DynItem) (item : DynItem) (e : IngestError),
      (∀ i ∈ pre, exceptOk (transform_item i) = true) →
      transform_item item = .error e →
      transform_items (pre ++ item :: post) = .error e) := by
  constructor
  · intro item h
    simp [transform_item, getS, getKey, h, Except.bind]
  · intro pre post item e
    induction pre with
    | nil =>
      intro _ herr
      simp [transform_items, herr]
    | cons i pre ih =>
      intro hok herr
      obtain ⟨r, hr⟩ := except_ok_exists (hok i (List.mem_cons_self _ _))
      have ihr := ih (fun x hx => hok x (List.mem_cons_of_mem _ hx)) herr
      simp [transform_items, hr, ihr]

/-- Witness for C2: the empty raw item raises KeyError nombre. -/
theorem transform_missing_field_raises_and_aborts_witness :
    transform_item ([] : DynItem) = .error (.KeyError "nombre") :=
  transform_missing_field_raises_and_aborts.1 [] rfl

/-- Counterexample for C2 as stated: an item carrying only nombre makes
transform_items raise KeyError passwordHash instead of producing a row
with a null in that column. -/
theorem transform_items_throws_on_missing_field :
    transform_items [[("nombre", [("S", "ana")])]]
      = .error (.KeyError "passwordHash") := by decide

/-- Claim C10 (confirmed).  When every item carries every declared field
with its S-tagged value, transform_items returns exactly one row per
item, in input order (row k is the transform of item k), and every row's
key list is exactly the seven declared column names in declaration
order. -/
theorem transform_items_one_row_per_item :
    ∀ (items : List DynItem),
      (∀ item ∈ items, ∀ f ∈ declared_fields, exceptOk (getS item f) = true) →
      ∃ rows, transform_items items = .ok rows ∧ rows.length = items.length ∧
        (∀ (k : Nat) (hk : k < items.length) (hk2 : k < rows.length),
          transform_item (items.get ⟨k, hk⟩) = .ok (rows.get ⟨k, hk2⟩)) ∧
        ∀ r ∈ rows, r.map Prod.fst = declared_fields := by
  intro items
  induction items with
  | nil =>
    intro _
    exact ⟨[], rfl, rfl, fun k hk _ => absurd hk (Nat.not_lt_zero k),
      fun r hr => absurd hr (List.not_mem_nil r)⟩
  | cons item rest ih =>
    intro h
    obtain ⟨r, hr⟩ := transform_item_ok_of_fields item (h item (List.mem_cons_self _ _))
    obtain ⟨rows, h1, h2, h3, h4⟩ := ih (fun it hit => h it (List.mem_cons_of_mem _ hit))
    refine ⟨r :: rows, ?_, ?_, ?_, ?_⟩
    · simp [transform_items, hr, h1]
    · simp [h2]
    · intro k hk hk2
      cases k with
      | zero => exact hr
      | succ k => exact h3 k (Nat.lt_of_succ_lt_succ hk) (Nat.lt_of_succ_lt_succ hk2)
    · intro x hx
      rcases List.mem_cons.mp hx with rfl | hx2
      · exact transform_item_ok_keys item x hr
      · exact h4 x hx2

/-- Witness for C10: a complete concrete item yields exactly one row whose
keys are the declared columns. -/
theorem transform_items_one_row_per_item_witness :
    ∃ rows, transform_items [c10_item] = .ok rows ∧ rows.length = [c10_item].length ∧
      (∀ (k : Nat) (hk : k < [c10_item].length) (hk2 : k < rows.length),
        transform_item ([c10_item].get ⟨k, hk⟩) = .ok (rows.get ⟨k, hk2⟩)) ∧
      ∀ r ∈ rows, r.map Prod.fst = declared_fields :=
  transform_items_one_row_per_item [c10_item] (by decide)

/-- Claim C8 (amended).  The first failing statement in save_to_mysql aborts
the execution of every remaining INSERT for that table (no partial-row
retry), but no SinkWriteError reaches the caller: the handler at lines
103-104 logs the mysql error and returns normally, which is also why the
orchestrator always proceeds to the next partition. -/
theorem sink_failure_aborts_remaining_rows :
    (∀ (execResult : Nat → Option String) (df : DataFrame) (table : String),
      (save_to_mysql execResult df table).1 = Except.ok ())
    ∧ (∀ (execResult : Nat → Option String) (df : DataFrame) (table : String) (k : Nat)
        (e : String),
      (∀ j, j < k → execResult j = none) → execResult k = some e →
      k < (create_table_query table df.columns :: df.data.map (insert_query table)).length →
      (save_to_mysql execResult df table).2 =
        ((create_table_query table df.columns :: df.data.map (insert_query table)).take (k + 1),
          some e)) := by
  refine ⟨fun execResult df table => rfl, fun execResult df table k e hnone hsome hk => ?_⟩
  have hrun := run_statements_stops execResult
    (create_table_query table df.columns :: df.data.map (insert_query table)) 0 k e
    (fun j hj => by simpa using hnone j hj) (by simpa using hsome) hk
  simp only [save_to_mysql]
  rw [hrun]

/-- Witness for C8: with the first INSERT failing, only the CREATE TABLE and
that INSERT are executed and the error is merely logged. -/
theorem sink_failure_aborts_remaining_rows_witness :
    (save_to_mysql c8_exec c8_df "summary_table_t").2 =
      ((create_table_query "summary_table_t" c8_df.columns ::
          c8_df.data.map (insert_query "summary_table_t")).take 2, some "Duplicate entry") :=
  sink_failure_aborts_remaining_rows.2 c8_exec c8_df "summary_table_t" 1 "Duplicate entry"
    (fun j hj => by have h0 : j = 0 := Nat.lt_one_iff.mp hj; subst h0; rfl) rfl (by decide)

/-- Counterexample for C8 as stated: a failing INSERT does not make
save_to_mysql fail; the caller sees a normal return while the second row
is never inserted. -/
theorem save_to_mysql_swallows_statement_failure :
    save_to_mysql c8_exec c8_df "summary_table_t"
      = (Except.ok (), ["CREATE TABLE IF NOT EXISTS summary_table_t (a TEXT)",
          "INSERT INTO summary_table_t VALUES (\x271\x27)"], some "Duplicate entry") := by
  decide

end IngestaDev
